import Mathlib

/-!
Shallow embedding of the attendance risk classification and arrival-timing
analytics engine of `org/views.py` (functions `org_dashboard_overview`,
`org_dashboard_event_report`, `_get_event_context`, `calculate_time_difference`).

Python floats are modelled as exact rationals (`ℚ`), Python ints as `ℤ`/`ℕ`,
datetimes as integer seconds, dates as integer day numbers.  Django querysets
are modelled as Lean lists over an explicit snapshot of the three tables the
analytics read (events, attendance logs, and the student ids they mention).
-/

/-- Python's built-in `round` on an exact rational: round half to even.
For a reduced fraction `q = n / d` (with `d > 0`), `⌊q⌋ = n.fdiv d` and the
fractional part is `(n - ⌊q⌋ * d) / d`; comparing twice the remainder with `d`
decides the direction, with ties going to the even integer. -/
def pyRound (q : ℚ) : ℤ :=
  let n : ℤ := q.num
  let d : ℤ := (q.den : ℤ)
  let f : ℤ := Int.fdiv n d
  let r2 : ℤ := 2 * (n - f * d)
  if r2 < d then f
  else if d < r2 then f + 1
  else if f % 2 = 0 then f else f + 1

/-- Python's `int(...)` applied to a rational: truncation toward zero
(`Int.tdiv` is t-division, which rounds toward zero). -/
def truncQ (q : ℚ) : ℤ :=
  Int.tdiv q.num (q.den : ℤ)

/-! ### Arrival classifier (org/views.py, overview lines 255-287 and
event report lines 517-561) -/

/-- `sum(1 for m in offsets if m <= -5)` (views.py:257 / 534). -/
def earlyCount (offsets : List ℚ) : ℕ :=
  offsets.countP (fun m => decide (m ≤ -5))

/-- `sum(1 for m in offsets if -5 < m <= 10)` (views.py:258 / 535). -/
def onTimeCount (offsets : List ℚ) : ℕ :=
  offsets.countP (fun m => decide (-5 < m ∧ m ≤ 10))

/-- `sum(1 for m in offsets if m > 10)` (views.py:259 / 536). -/
def lateCount (offsets : List ℚ) : ℕ :=
  offsets.countP (fun m => decide (10 < m))

/-- Per-record arrival bucket of `org_dashboard_event_report`
(views.py:517-523): `if diff <= -5: 'Early' elif -5 < diff <= 10: 'On-time'
else: 'Late'`. -/
def arrivalBucket (m : ℚ) : String :=
  if m ≤ -5 then "Early"
  else if -5 < m ∧ m ≤ 10 then "On-time"
  else "Late"

/-- The median value computed by both arrival paths (views.py:265-270 and
546-551): sort ascending, take the middle element for odd length, the average
of the two middle elements for even length.  Only invoked on non-empty lists
in the source (both call sites are guarded by a non-emptiness check); the
`getD` default is never read there. -/
def medianValue (offsets : List ℚ) : ℚ :=
  let sorted := offsets.insertionSort (· ≤ ·)
  let n := offsets.length
  if n % 2 = 1 then sorted.getD (n / 2) 0
  else (sorted.getD (n / 2 - 1) 0 + sorted.getD (n / 2) 0) / 2

/-- Rendering of an integer median-minute value (views.py:273-279 and
554-560): `median_minutes <= -1` → "N min before start", `median_minutes >= 1`
→ "N min after start", otherwise "right at start". -/
def renderMedianMinutes (m : ℤ) : String :=
  if m ≤ -1 then toString m.natAbs ++ " min before start"
  else if 1 ≤ m then toString m ++ " min after start"
  else "right at start"

/-- Median label of a non-empty offset list: `int(round(median_val))`
followed by the three-way rendering (views.py:272-279 / 553-560).
Python's `int` on an int is the identity, so this is `pyRound` then render. -/
def medianLabelOf (offsets : List ℚ) : String :=
  renderMedianMinutes (pyRound (medianValue offsets))

/-- The arrival statistics payload assembled by `org_dashboard_overview`
(views.py:216-287). -/
structure ArrivalStats where
  total : ℕ
  early : ℕ
  on_time : ℕ
  late : ℕ
  early_percent : ℤ
  on_time_percent : ℤ
  late_percent : ℤ
  median_label : String
deriving DecidableEq, Repr

/-- `org_dashboard_overview` arrival computation over the offset list of the
chosen arrival event (views.py:217-287): the default all-zero payload with
label "No data yet" is kept when there are no offsets; otherwise counts,
rounded percentages and the median label are filled in. -/
def arrival_stats (offsets : List ℚ) : ArrivalStats :=
  let total := offsets.length
  if total = 0 then
    { total := 0, early := 0, on_time := 0, late := 0,
      early_percent := 0, on_time_percent := 0, late_percent := 0,
      median_label := "No data yet" }
  else
    { total := total
      early := earlyCount offsets
      on_time := onTimeCount offsets
      late := lateCount offsets
      early_percent := pyRound ((earlyCount offsets : ℚ) * 100 / total)
      on_time_percent := pyRound ((onTimeCount offsets : ℚ) * 100 / total)
      late_percent := pyRound ((lateCount offsets : ℚ) * 100 / total)
      median_label := medianLabelOf offsets }

/-! ### Risk classifier (org/views.py:178-211 and 316-353) -/

/-- The three risk tiers of the dashboard legend (views.py:138-141). -/
inductive RiskTier
  | high
  | emerging
  | low
deriving DecidableEq, Repr

/-- The classification policy shared verbatim by the aggregate loop
(views.py:196-203) and (with string labels) the per-student list loop
(views.py:339-347): first match wins among `attendance_rate < 70.0`,
`absences_recent >= 2`, else low risk. -/
def riskPolicy (attendance_rate : ℚ) (absences_recent : ℤ) : RiskTier :=
  if attendance_rate < 70 then .high
  else if 2 ≤ absences_recent then .emerging
  else .low

/-- Aggregate-loop attendance rate (views.py:184):
`(attended_all * 100.0 / total_events) if total_events else 0.0`. -/
def overviewAttendanceRate (attended_all total_events : ℕ) : ℚ :=
  if total_events = 0 then 0 else (attended_all : ℚ) * 100 / total_events

/-- Student-list attendance rate (views.py:318-323): the attended count is
zeroed when `total_events` is zero, and the rate defaults to `100.0` (not 0)
in that case: `(attended_all * 100.0 / total_events) if total_events else
100.0`. -/
def listAttendanceRate (attended_all total_events : ℕ) : ℚ :=
  let attended := if total_events = 0 then 0 else attended_all
  if total_events = 0 then 100 else (attended : ℚ) * 100 / total_events

/-- Recent absences (views.py:187-194 and 326-333, identical in both loops):
`len(recent_event_ids) - attended_recent` when the recent window is
non-empty, else `0`. -/
def recentAbsences (num_recent attended_recent : ℕ) : ℤ :=
  if num_recent = 0 then 0 else (num_recent : ℤ) - (attended_recent : ℤ)

/-- Risk tier assigned to one student by the aggregate loop
(views.py:178-203), as a function of the two attendance query results, the
baseline size and the recent-window size. -/
def riskTierOverview (attended_all total_events num_recent attended_recent : ℕ) :
    RiskTier :=
  riskPolicy (overviewAttendanceRate attended_all total_events)
    (recentAbsences num_recent attended_recent)

/-- Flag and label attached to one student by the per-student list loop
(views.py:316-347), from the same query results.  The conditional cascade is
written out as in the source; only the rate default differs from the
aggregate loop. -/
def studentFlag (attended_all total_events num_recent attended_recent : ℕ) :
    String × String :=
  let rate := listAttendanceRate attended_all total_events
  let absences := recentAbsences num_recent attended_recent
  if rate < 70 then ("high-risk", "Chronic Risk")
  else if 2 ≤ absences then ("emerging-risk", "At-Risk")
  else ("low-risk", "Good Standing")

/-! ### Snapshot of the persistence layer

The analytics read three tables: `Event` (id, owning organization, date,
start and end time), `Attendance` (event id, student id, timestamp) and the
student ids reachable through attendance.  `Student.organization` is
deliberately not consulted by the analytics (views.py:144-146), so students
appear in the snapshot only through their attendance rows.  Dates are integer
day numbers and times-of-day integer seconds; `today` is the current date of
the query. -/

structure Event where
  id : ℕ
  org : ℕ
  event_date : ℤ
  start_time : ℤ
  end_time : ℤ
deriving DecidableEq, Repr

structure Attendance where
  event_id : ℕ
  student_id : ℕ
  timestamp : ℤ
deriving DecidableEq, Repr

structure Snapshot where
  events : List Event
  attendance : List Attendance
  today : ℤ
deriving DecidableEq, Repr

/-- `Student.objects.filter(history__event__organization=organization)
.distinct()` (views.py:146): the distinct student ids having at least one
attendance row whose event belongs to the organization. -/
def scopedStudents (s : Snapshot) (org : ℕ) : List ℕ :=
  ((s.attendance.filter (fun a =>
      s.events.any (fun e => decide (e.id = a.event_id ∧ e.org = org)))).map
    (fun a => a.student_id)).dedup

/-- `Event.objects.filter(organization=organization, event_date__lte=today)`
(views.py:151-154): the organization-scoped baseline event set, restricted to
events that have already happened. -/
def completedScoped (s : Snapshot) (org : ℕ) : List Event :=
  s.events.filter (fun e => decide (e.org = org ∧ e.event_date ≤ s.today))

/-- `Event.objects.filter(logs__isnull=False).distinct()` (views.py:161):
every event with at least one attendance log, with no date or organization
restriction. -/
def eventsWithLogs (s : Snapshot) : List Event :=
  s.events.filter (fun e => s.attendance.any (fun a => decide (a.event_id = e.id)))

/-- `Student.objects.filter(history__event__in=completed_events).distinct()`
(views.py:163): distinct student ids with an attendance row on one of the
given events. -/
def studentsIn (s : Snapshot) (evs : List Event) : List ℕ :=
  ((s.attendance.filter (fun a =>
      evs.any (fun e => decide (e.id = a.event_id)))).map
    (fun a => a.student_id)).dedup

/-- The two-tier resolution of views.py:146-164: compute the
organization-scoped student set and completed event set, then — `if
total_students == 0 or total_events == 0` — replace BOTH by the global
fallback (events with logs, and the students with history in them). -/
def riskSets (s : Snapshot) (org : ℕ) : List ℕ × List Event :=
  let students := scopedStudents s org
  let completed := completedScoped s org
  if students.length = 0 ∨ completed.length = 0 then
    (studentsIn s (eventsWithLogs s), eventsWithLogs s)
  else
    (students, completed)

/-- `Attendance.objects.filter(student=student, event_id__in=ids).count()`
(views.py:180-183 and 317-320, 327-331). -/
def attendedCount (s : Snapshot) (stu : ℕ) (ids : List ℕ) : ℕ :=
  (s.attendance.filter (fun a =>
    decide (a.student_id = stu ∧ a.event_id ∈ ids))).length

/-- `completed_events.filter(event_date__gte=window_start)` with
`window_start = today - timedelta(days=9)` (views.py:171-172), mapped to ids
(views.py:176). -/
def recentEventIds (s : Snapshot) (completed : List Event) : List ℕ :=
  (completed.filter (fun e => decide (s.today - 9 ≤ e.event_date))).map
    (fun e => e.id)

/-- The tier the aggregate loop assigns to one student id of the resolved
student set (views.py:178-203). -/
def tierOf (s : Snapshot) (org : ℕ) (stu : ℕ) : RiskTier :=
  let completed := (riskSets s org).2
  let allIds := completed.map (fun e => e.id)
  let recentIds := recentEventIds s completed
  riskTierOverview (attendedCount s stu allIds) completed.length
    recentIds.length (attendedCount s stu recentIds)

/-- The `(high_risk, emerging_risk, low_risk)` counters of views.py:166-203:
zero when there are no resolved students (the loop is guarded by
`if total_students:`), otherwise one increment per student on the branch its
tier selects. -/
def riskDistribution (s : Snapshot) (org : ℕ) : ℕ × ℕ × ℕ :=
  let students := (riskSets s org).1
  if students.length = 0 then (0, 0, 0)
  else
    (students.countP (fun stu => decide (tierOf s org stu = .high)),
     students.countP (fun stu => decide (tierOf s org stu = .emerging)),
     students.countP (fun stu => decide (tierOf s org stu = .low)))

/-- The `(high_pct, emerging_pct, low_pct)` of views.py:205-211:
`round(count * 100.0 / total_students)` behind an `if total_students:` guard,
else all zero. -/
def riskPercents (s : Snapshot) (org : ℕ) : ℤ × ℤ × ℤ :=
  let total := (riskSets s org).1.length
  let counts := riskDistribution s org
  if total = 0 then (0, 0, 0)
  else
    (pyRound ((counts.1 : ℚ) * 100 / total),
     pyRound ((counts.2.1 : ℚ) * 100 / total),
     pyRound ((counts.2.2 : ℚ) * 100 / total))

/-! ### Time-window utilities (org/views.py:66-96, 107-124, 971-987) -/

/-- `datetime.combine(event_date, t)` with dates as day numbers and
times-of-day as seconds: total seconds since the epoch. -/
def combine (d t : ℤ) : ℤ := d * 86400 + t

/-- The three-way bucket of `_get_event_context` (views.py:86-91). -/
inductive EventWindow
  | ongoing
  | future
  | past
deriving DecidableEq, Repr

/-- `if start_dt <= now <= end_dt: ongoing elif start_dt > now: future
else: past` (views.py:86-91, identical in views.py:119-124). -/
def classifyEvent (e : Event) (now : ℤ) : EventWindow :=
  let start_dt := combine e.event_date e.start_time
  let end_dt := combine e.event_date e.end_time
  if start_dt ≤ now ∧ now ≤ end_dt then .ongoing
  else if start_dt > now then .future
  else .past

/-- The `order_by('-event_date', '-start_time')` ordering (views.py:111):
`a` precedes `b` when `a` has the later date, or the same date and a
start time no earlier. -/
def descOrder (a b : Event) : Prop :=
  b.event_date < a.event_date ∨
    (a.event_date = b.event_date ∧ b.start_time ≤ a.start_time)

instance : DecidableRel descOrder := fun a b => by
  unfold descOrder; infer_instance

/-- The organization's events sorted newest first (views.py:111). -/
def sortEventsDesc (evs : List Event) : List Event :=
  evs.insertionSort descOrder

/-- The active-event scan of `org_dashboard_overview` (views.py:110-124):
walk the events newest first and stop at the first whose window is ongoing;
`None` when no event is ongoing. -/
def activeEvent (evs : List Event) (now : ℤ) : Option Event :=
  (sortEventsDesc evs).find? (fun e => decide (classifyEvent e now = .ongoing))

/-- Arrival offset of the dashboard paths (views.py:252-253 and 533):
`(ts - start_dt).total_seconds() / 60.0`, an exact fractional number of
minutes with no truncation. -/
def overviewOffset (ts start_dt : ℤ) : ℚ :=
  ((ts : ℚ) - (start_dt : ℚ)) / 60

/-- `calculate_time_difference` (views.py:971-987): the same difference in
minutes, passed through Python's `int(...)`, i.e. truncated toward zero. -/
def calculate_time_difference (event_start ts : ℤ) : ℤ :=
  truncQ (((ts : ℚ) - (event_start : ℚ)) / 60)

/-! ### Concrete snapshots used to separate the resolution tiers -/

/-- Organization 1 has one future event (id 1, tomorrow) carrying a log by
student 101; organization 2 has one completed event (id 2, today) with a log
by student 202.  `today = 10`. -/
def exJoint : Snapshot :=
  { events := [⟨1, 1, 11, 3600, 7200⟩, ⟨2, 2, 10, 3600, 7200⟩]
    attendance := [⟨1, 101, 0⟩, ⟨2, 202, 0⟩]
    today := 10 }

/-- Organization 1 has a single event dated five days in the future
(`today = 10`, date 15) with one attendance log by student 101. -/
def exFuture : Snapshot :=
  { events := [⟨1, 1, 15, 3600, 7200⟩]
    attendance := [⟨1, 101, 0⟩]
    today := 10 }

/-- An entirely empty snapshot. -/
def exEmpty : Snapshot :=
  { events := [], attendance := [], today := 0 }

/-! ### Helper lemmas -/

/-- Summing three mutually exclusive, jointly exhaustive counts gives the
length of the list. -/
theorem countP_three_partition {α : Type} (l : List α) (p q r : α → Bool)
    (h : ∀ x, (p x = true ∧ q x = false ∧ r x = false) ∨
      (p x = false ∧ q x = true ∧ r x = false) ∨
      (p x = false ∧ q x = false ∧ r x = true)) :
    l.countP p + l.countP q + l.countP r = l.length := by
  induction l with
  | nil => simp
  | cons hd tl ih =>
    rcases h hd with ⟨h1, h2, h3⟩ | ⟨h1, h2, h3⟩ | ⟨h1, h2, h3⟩ <;>
      simp [List.countP_cons, h1, h2, h3] <;> omega

/-- Every rational is in exactly one of the three arrival ranges. -/
theorem arrival_range_trichotomy (m : ℚ) :
    (decide (m ≤ -5) = true ∧ decide (-5 < m ∧ m ≤ 10) = false ∧
      decide (10 < m) = false) ∨
    (decide (m ≤ -5) = false ∧ decide (-5 < m ∧ m ≤ 10) = true ∧
      decide (10 < m) = false) ∨
    (decide (m ≤ -5) = false ∧ decide (-5 < m ∧ m ≤ 10) = false ∧
      decide (10 < m) = true) := by
  rcases le_or_lt m (-5) with h1 | h1
  · refine Or.inl ⟨by simpa using h1, ?_, ?_⟩
    · simp only [decide_eq_false_iff_not]
      rintro ⟨h2, -⟩
      linarith
    · simp only [decide_eq_false_iff_not, not_lt]
      linarith
  · rcases le_or_lt m 10 with h2 | h2
    · refine Or.inr (Or.inl ⟨?_, by simpa using ⟨h1, h2⟩, ?_⟩)
      · simp only [decide_eq_false_iff_not, not_le]
        linarith
      · simp only [decide_eq_false_iff_not, not_lt]
        linarith
    · refine Or.inr (Or.inr ⟨?_, ?_, by simpa using h2⟩)
      · simp only [decide_eq_false_iff_not, not_le]
        linarith
      · simp only [decide_eq_false_iff_not]
        rintro ⟨-, h3⟩
        linarith

/-- A successful `find?` splits the list at the first hit. -/
theorem find_first_split {α : Type} (p : α → Bool) (l : List α) (a : α)
    (h : l.find? p = some a) :
    ∃ l1 l2, l = l1 ++ a :: l2 ∧ ∀ x ∈ l1, p x = false := by
  induction l with
  | nil => simp at h
  | cons hd tl ih =>
    by_cases hp : p hd = true
    · rw [List.find?_cons_of_pos _ hp] at h
      cases h
      exact ⟨[], tl, rfl, by simp⟩
    · rw [List.find?_cons_of_neg _ (by simpa using hp)] at h
      obtain ⟨l1, l2, heq, hall⟩ := ih h
      refine ⟨hd :: l1, l2, by rw [heq, List.cons_append], ?_⟩
      intro x hx
      rcases List.mem_cons.mp hx with rfl | hx
      · simpa using hp
      · exact hall x hx

/-- Counting by tier partitions any list mapped into `RiskTier`. -/
theorem countP_riskTier {α : Type} (l : List α) (f : α → RiskTier) :
    l.countP (fun x => decide (f x = .high)) +
      l.countP (fun x => decide (f x = .emerging)) +
      l.countP (fun x => decide (f x = .low)) = l.length := by
  refine countP_three_partition l _ _ _ (fun x => ?_)
  cases hf : f x <;> simp [hf]

/-- `pyRound` is the identity on integers. -/
theorem pyRound_intCast (z : ℤ) : pyRound (z : ℚ) = z := by
  simp [pyRound, Rat.num_intCast, Rat.den_intCast, Int.fdiv_one]

/-- On nonnegative rationals, truncation toward zero is the floor. -/
theorem truncQ_of_nonneg (q : ℚ) (h : 0 ≤ q) : truncQ q = ⌊q⌋ := by
  rw [truncQ, Int.tdiv_eq_ediv (Rat.num_nonneg.mpr h) (Int.ofNat_nonneg _)]
  rw [← Rat.floor_intCast_div_natCast q.num q.den, Rat.num_div_den]

/-- On nonpositive rationals, truncation toward zero is the ceiling. -/
theorem truncQ_of_nonpos (q : ℚ) (h : q ≤ 0) : truncQ q = ⌈q⌉ := by
  have hneg : truncQ q = -truncQ (-q) := by
    rw [truncQ, truncQ, Rat.neg_num, Rat.neg_den, Int.neg_tdiv, neg_neg]
  rw [hneg, truncQ_of_nonneg (-q) (by linarith), Int.floor_neg, neg_neg]

/-! ### Claim theorems -/

/-- C1: the risk tier is computed by first-match evaluation in strict order
(`attendance_rate < 70.0` → high/Chronic, else `recent_absences ≥ 2` →
emerging/At-risk, else low/Good standing); in particular a rate of 50 with no
recent absences is Chronic, and the aggregate loop is precisely this policy
applied to its rate and absence inputs. -/
theorem risk_first_match_order (rate : ℚ) (absR : ℤ) (a t nr ar : ℕ) :
    (riskPolicy rate absR = .high ↔ rate < 70) ∧
    (riskPolicy rate absR = .emerging ↔ ¬rate < 70 ∧ 2 ≤ absR) ∧
    (riskPolicy rate absR = .low ↔ ¬rate < 70 ∧ absR < 2) ∧
    (riskTierOverview a t nr ar =
      riskPolicy (overviewAttendanceRate a t) (recentAbsences nr ar)) ∧
    (rate = 50 → absR = 0 → riskPolicy rate absR = .high) := by
  refine ⟨?_, ?_, ?_, rfl, ?_⟩
  · unfold riskPolicy
    split_ifs with h1 h2 <;> simp_all
  · unfold riskPolicy
    split_ifs with h1 h2 <;> simp_all
  · unfold riskPolicy
    split_ifs with h1 h2 <;> simp_all
  · intro h50 h0
    unfold riskPolicy
    rw [if_pos (by rw [h50]; norm_num)]

/-- C1 witness: a rate of 50 with zero recent absences is classified
high-risk. -/
theorem risk_first_match_order_witness : riskPolicy 50 0 = .high :=
  (risk_first_match_order 50 0 0 0 0 0).2.2.2.2 rfl rfl

/-- C2: each offset falls in exactly one arrival bucket, so the three counts
sum to the total, both as raw counts and inside the assembled payload; at the
boundaries, −5 is Early, 10 is On-time and 11 is Late, and in general
`m ≤ −5` is Early, `−5 < m ≤ 10` is On-time and `m > 10` is Late. -/
theorem arrival_bucket_partition :
    (∀ offsets : List ℚ,
      earlyCount offsets + onTimeCount offsets + lateCount offsets =
        offsets.length) ∧
    (∀ offsets : List ℚ,
      (arrival_stats offsets).early + (arrival_stats offsets).on_time +
        (arrival_stats offsets).late = (arrival_stats offsets).total) ∧
    arrivalBucket (-5) = "Early" ∧
    arrivalBucket 10 = "On-time" ∧
    arrivalBucket 11 = "Late" ∧
    (∀ m : ℚ, (m ≤ -5 → arrivalBucket m = "Early") ∧
      (-5 < m → m ≤ 10 → arrivalBucket m = "On-time") ∧
      (10 < m → arrivalBucket m = "Late")) := by
  have hsum : ∀ offsets : List ℚ,
      earlyCount offsets + onTimeCount offsets + lateCount offsets =
        offsets.length := fun offsets =>
    countP_three_partition offsets _ _ _ arrival_range_trichotomy
  refine ⟨hsum, ?_, by norm_num [arrivalBucket], by norm_num [arrivalBucket],
    by norm_num [arrivalBucket], ?_⟩
  · intro offsets
    by_cases h0 : offsets.length = 0
    · simp [arrival_stats, h0]
    · simpa [arrival_stats, h0] using hsum offsets
  · intro m
    refine ⟨fun h => by simp [arrivalBucket, h], fun h1 h2 => ?_, fun h => ?_⟩
    · simp [arrivalBucket, not_le.mpr h1, h1, h2]
    · have h1 : ¬m ≤ -5 := by linarith
      have h2 : ¬m ≤ 10 := not_le.mpr h
      simp [arrivalBucket, h1, h2]

/-- C2 witness: concrete offsets on each side of the boundaries land in the
stated buckets. -/
theorem arrival_bucket_partition_witness :
    arrivalBucket (-6) = "Early" ∧ arrivalBucket 0 = "On-time" ∧
      arrivalBucket 12 = "Late" :=
  ⟨(arrival_bucket_partition.2.2.2.2.2 (-6)).1 (by decide),
   (arrival_bucket_partition.2.2.2.2.2 0).2.1 (by decide) (by decide),
   (arrival_bucket_partition.2.2.2.2.2 12).2.2 (by decide)⟩

/-- C3: the median label is the standard median (middle element, or average
of the two middle elements) rounded to an integer and rendered as
"N min before start" (≤ −1), "N min after start" (≥ 1) or "right at start"
(0); an empty offset list yields "No data yet" with all-zero counts; and
offsets [−10, −2, 0, 12] give Early=1, On-time=2, Late=1, median −1 and
label "1 min before start". -/
theorem median_label_spec :
    (arrival_stats [] =
      { total := 0, early := 0, on_time := 0, late := 0, early_percent := 0,
        on_time_percent := 0, late_percent := 0,
        median_label := "No data yet" }) ∧
    (∀ offsets : List ℚ, offsets ≠ [] →
      (arrival_stats offsets).median_label =
        renderMedianMinutes (pyRound (medianValue offsets))) ∧
    (∀ m : ℤ,
      (m ≤ -1 →
        renderMedianMinutes m = toString m.natAbs ++ " min before start") ∧
      (1 ≤ m →
        renderMedianMinutes m = toString m ++ " min after start") ∧
      (m = 0 → renderMedianMinutes m = "right at start")) ∧
    (medianValue [-10, -2, 0, 12] = -1 ∧
      (arrival_stats [-10, -2, 0, 12]).early = 1 ∧
      (arrival_stats [-10, -2, 0, 12]).on_time = 2 ∧
      (arrival_stats [-10, -2, 0, 12]).late = 1 ∧
      (arrival_stats [-10, -2, 0, 12]).median_label = "1 min before start") := by
  have hlink : ∀ offsets : List ℚ, offsets ≠ [] →
      (arrival_stats offsets).median_label =
        renderMedianMinutes (pyRound (medianValue offsets)) := by
    intro offsets h
    have h0 : ¬offsets.length = 0 := by simpa [List.length_eq_zero] using h
    simp [arrival_stats, h0, medianLabelOf]
  have hsort : ([(-10 : ℚ), -2, 0, 12].insertionSort (· ≤ ·)) =
      [-10, -2, 0, 12] := by decide
  have hmed : medianValue [-10, -2, 0, 12] = -1 := by
    simp only [medianValue, hsort]
    norm_num
  refine ⟨rfl, hlink, ?_, hmed, by decide, by decide, by decide, ?_⟩
  · intro m
    refine ⟨fun h => ?_, fun h => ?_, fun h => ?_⟩
    · rw [renderMedianMinutes, if_pos h]
    · rw [renderMedianMinutes, if_neg (by omega), if_pos h]
    · subst h; decide
  · rw [hlink _ (by decide), hmed]
    rw [show ((-1 : ℚ)) = (((-1 : ℤ) : ℚ)) by norm_num, pyRound_intCast]
    decide

/-- C3 witness: the median-label link applied to a concrete non-empty list,
and the zero-median rendering. -/
theorem median_label_spec_witness :
    (arrival_stats [(1 : ℚ)]).median_label =
      renderMedianMinutes (pyRound (medianValue [(1 : ℚ)])) ∧
    renderMedianMinutes 0 = "right at start" :=
  ⟨median_label_spec.2.1 [(1 : ℚ)] (by decide),
   (median_label_spec.2.2.1 0).2.2 rfl⟩

/-- C4 counterexample: in the per-student list path (views.py:318-323) an
empty baseline event set yields an attendance rate of 100, not 0. -/
theorem list_rate_default_counterexample :
    listAttendanceRate 3 0 = 100 ∧ listAttendanceRate 3 0 ≠ 0 := by
  refine ⟨rfl, ?_⟩
  rw [show listAttendanceRate 3 0 = 100 from rfl]
  norm_num

/-- C4 amended: with a zero denominator the aggregate risk path yields rate
0, the risk and arrival percentages yield 0, and on a non-zero denominator
both rate paths compute `attended * 100 / total`; but the per-student list
path defaults the rate to 100 (not 0) when the baseline event set is
empty. -/
theorem zero_denominator_defaults (a t : ℕ) :
    overviewAttendanceRate a 0 = 0 ∧
    (t ≠ 0 → overviewAttendanceRate a t = (a : ℚ) * 100 / t) ∧
    listAttendanceRate a 0 = 100 ∧
    (t ≠ 0 → listAttendanceRate a t = (a : ℚ) * 100 / t) ∧
    (∀ (s : Snapshot) (org : ℕ),
      (riskSets s org).1.length = 0 → riskPercents s org = (0, 0, 0)) ∧
    (arrival_stats []).early_percent = 0 ∧
    (arrival_stats []).on_time_percent = 0 ∧
    (arrival_stats []).late_percent = 0 := by
  refine ⟨rfl, fun h => ?_, rfl, fun h => ?_, fun s org h => ?_, rfl, rfl, rfl⟩
  · rw [overviewAttendanceRate, if_neg h]
  · rw [listAttendanceRate]
    simp only [h, if_false, if_neg h]
  · rw [riskPercents]
    simp [h]

/-- C4 witness: the non-degenerate rate formulas at `attended = 1, total = 2`
and the zero-percentage case on the empty snapshot. -/
theorem zero_denominator_defaults_witness :
    overviewAttendanceRate 1 2 = (1 : ℚ) * 100 / 2 ∧
    listAttendanceRate 1 2 = (1 : ℚ) * 100 / 2 ∧
    riskPercents exEmpty 1 = (0, 0, 0) :=
  ⟨(zero_denominator_defaults 1 2).2.1 (by decide),
   (zero_denominator_defaults 1 2).2.2.2.1 (by decide),
   (zero_denominator_defaults 0 0).2.2.2.2.1 exEmpty 1 (by decide)⟩

/-- C5 counterexample: in `exJoint` organization 1 has a non-empty scoped
student set, yet because its scoped completed-event set is empty the student
set is ALSO replaced by the global fallback — the two switches are not
independent. -/
theorem joint_fallback_counterexample :
    scopedStudents exJoint 1 ≠ [] ∧
    (riskSets exJoint 1).1 ≠ scopedStudents exJoint 1 := by
  refine ⟨by decide, by decide⟩

/-- C5 amended: the resolution is two-tier but JOINT — both the student set
and the baseline event set are replaced by the global fallback exactly when
the scoped student set is empty OR the scoped completed-event set is empty;
neither set switches alone. -/
theorem two_tier_joint_fallback (s : Snapshot) (org : ℕ) :
    (scopedStudents s org ≠ [] → completedScoped s org ≠ [] →
      riskSets s org = (scopedStudents s org, completedScoped s org)) ∧
    (scopedStudents s org = [] ∨ completedScoped s org = [] →
      riskSets s org = (studentsIn s (eventsWithLogs s), eventsWithLogs s)) := by
  constructor
  · intro h1 h2
    rw [riskSets, if_neg]
    simp only [List.length_eq_zero, not_or]
    exact ⟨h1, h2⟩
  · intro h
    rw [riskSets, if_pos]
    simpa only [List.length_eq_zero] using h

/-- C5 witness: on `exJoint` the scoped completed-event set of organization 1
is empty, so both resolved sets are the global ones. -/
theorem two_tier_joint_fallback_witness :
    riskSets exJoint 1 =
      (studentsIn exJoint (eventsWithLogs exJoint), eventsWithLogs exJoint) :=
  (two_tier_joint_fallback exJoint 1).2 (Or.inr (by decide))

/-- C6 counterexample: in `exFuture` the resolved baseline event set of
organization 1 contains an event dated after `today` (the global fallback
tier has no date filter). -/
theorem baseline_future_event_counterexample :
    ¬∀ e ∈ (riskSets exFuture 1).2, e.event_date ≤ exFuture.today := by
  decide

/-- C6 amended: only the organization-scoped tier restricts the baseline to
completed (non-future) events; the global fallback tier instead contains
exactly the events carrying at least one attendance log, regardless of date.
Consequently every resolved baseline event is completed or has a log. -/
theorem baseline_tier_dates (s : Snapshot) (org : ℕ) (e : Event) :
    (e ∈ completedScoped s org → e.org = org ∧ e.event_date ≤ s.today) ∧
    (e ∈ eventsWithLogs s ↔
      e ∈ s.events ∧ ∃ a ∈ s.attendance, a.event_id = e.id) ∧
    (e ∈ (riskSets s org).2 →
      e.event_date ≤ s.today ∨ ∃ a ∈ s.attendance, a.event_id = e.id) := by
  have hlogs : e ∈ eventsWithLogs s ↔
      e ∈ s.events ∧ ∃ a ∈ s.attendance, a.event_id = e.id := by
    rw [eventsWithLogs, List.mem_filter]
    simp [List.any_eq_true]
  refine ⟨fun h => ?_, hlogs, fun h => ?_⟩
  · rw [completedScoped, List.mem_filter] at h
    simpa using h.2
  · rw [riskSets] at h
    split_ifs at h with hc
    · exact Or.inr ((hlogs.mp h).2)
    · rw [completedScoped, List.mem_filter] at h
      have := h.2
      simp only [decide_eq_true_eq] at this
      exact Or.inl this.2

/-- C6 witness: the future logged event of `exFuture` is admitted to the
fallback baseline through its attendance log. -/
theorem baseline_tier_dates_witness :
    (⟨1, 1, 15, 3600, 7200⟩ : Event).event_date ≤ exFuture.today ∨
      ∃ a ∈ exFuture.attendance, a.event_id = (1 : ℕ) :=
  (baseline_tier_dates exFuture 1 ⟨1, 1, 15, 3600, 7200⟩).2.2 (by decide)

/-- C7 counterexample: a check-in 630 seconds after the scheduled start gives
the dashboard paths an offset of 10.5 minutes — not the truncated integer 10
that `calculate_time_difference` produces — so the offset is not truncated
toward zero in every code path. -/
theorem offset_truncation_counterexample :
    overviewOffset 630 0 = 21 / 2 ∧
    calculate_time_difference 0 630 = 10 ∧
    overviewOffset 630 0 ≠ ((calculate_time_difference 0 630 : ℤ) : ℚ) := by
  have h1 : overviewOffset 630 0 = 21 / 2 := by
    rw [overviewOffset]; norm_num
  have h2 : calculate_time_difference 0 630 = 10 := by
    rw [calculate_time_difference,
      show (((630 : ℤ) : ℚ) - ((0 : ℤ) : ℚ)) / 60 = 21 / 2 by norm_num,
      truncQ_of_nonneg _ (by norm_num), Int.floor_eq_iff]
    norm_num
  refine ⟨h1, h2, ?_⟩
  rw [h1, h2]
  norm_num

/-- C7 amended: the dashboard paths (overview and event report) use the exact
fractional offset `(ts − start) / 60` with no truncation; only
`calculate_time_difference` truncates toward zero (floor on nonnegative,
ceiling on nonpositive values); negative offsets mean arrival before the
scheduled start. -/
theorem offset_paths (ts st : ℤ) (q : ℚ) :
    overviewOffset ts st = ((ts : ℚ) - (st : ℚ)) / 60 ∧
    calculate_time_difference st ts = truncQ (((ts : ℚ) - (st : ℚ)) / 60) ∧
    (0 ≤ q → truncQ q = ⌊q⌋) ∧
    (q ≤ 0 → truncQ q = ⌈q⌉) ∧
    (ts < st → overviewOffset ts st < 0) ∧
    (st < ts → 0 < overviewOffset ts st) := by
  refine ⟨rfl, rfl, truncQ_of_nonneg q, truncQ_of_nonpos q,
    fun h => ?_, fun h => ?_⟩
  · rw [overviewOffset]
    apply div_neg_of_neg_of_pos _ (by norm_num)
    rw [sub_neg]
    exact_mod_cast h
  · rw [overviewOffset]
    apply div_pos _ (by norm_num)
    rw [sub_pos]
    exact_mod_cast h

/-- C7 witness: the truncation characterizations at 0 and the sign of a
pre-start offset. -/
theorem offset_paths_witness :
    truncQ 0 = ⌊(0 : ℚ)⌋ ∧ truncQ 0 = ⌈(0 : ℚ)⌉ ∧ overviewOffset 0 60 < 0 :=
  ⟨(offset_paths 0 60 0).2.2.1 (by decide),
   (offset_paths 0 60 0).2.2.2.1 (by decide),
   (offset_paths 0 60 0).2.2.2.2.1 (by decide)⟩

/-- C8: an event is ONGOING exactly when `start ≤ now ≤ end`, FUTURE exactly
when `start > now`, PAST otherwise; the active event is the first ongoing one
when the events are scanned in descending (date, start time) order, and is
absent exactly when no event is ongoing. -/
theorem event_window_classification (e : Event) (now : ℤ) (evs : List Event)
    (a : Event) :
    (classifyEvent e now = .ongoing ↔
      combine e.event_date e.start_time ≤ now ∧
        now ≤ combine e.event_date e.end_time) ∧
    (classifyEvent e now = .future ↔
      now < combine e.event_date e.start_time) ∧
    (classifyEvent e now = .past ↔
      ¬(combine e.event_date e.start_time ≤ now ∧
          now ≤ combine e.event_date e.end_time) ∧
        ¬now < combine e.event_date e.start_time) ∧
    (activeEvent evs now = none ↔
      ∀ x ∈ evs, classifyEvent x now ≠ .ongoing) ∧
    (activeEvent evs now = some a →
      classifyEvent a now = .ongoing ∧
        ∃ l1 l2, sortEventsDesc evs = l1 ++ a :: l2 ∧
          ∀ x ∈ l1, classifyEvent x now ≠ .ongoing) := by
  have hperm : (sortEventsDesc evs).Perm evs := List.perm_insertionSort _ _
  refine ⟨?_, ?_, ?_, ?_, fun h => ?_⟩
  · rw [classifyEvent]
    split_ifs with h1 h2 <;> simp_all
  · rw [classifyEvent]
    split_ifs with h1 h2 <;> simp_all [gt_iff_lt]
  · rw [classifyEvent]
    split_ifs with h1 h2 <;> simp_all [gt_iff_lt]
  · rw [activeEvent, List.find?_eq_none]
    constructor
    · intro hnone x hx
      simpa using hnone x (hperm.mem_iff.mpr hx)
    · intro hall x hx
      simpa using hall x (hperm.mem_iff.mp hx)
  · have hp := List.find?_some h
    simp only [decide_eq_true_eq] at hp
    obtain ⟨l1, l2, heq, hall⟩ := find_first_split _ _ _ h
    exact ⟨hp, l1, l2, heq, fun x hx => by simpa using hall x hx⟩

/-- C8 witness: a single event spanning `now` is ongoing and is returned as
the active event, with nothing before it in the scan. -/
theorem event_window_classification_witness :
    classifyEvent ⟨1, 1, 0, 0, 3600⟩ 0 = .ongoing ∧
      ∃ l1 l2, sortEventsDesc [⟨1, 1, 0, 0, 3600⟩] =
          l1 ++ (⟨1, 1, 0, 0, 3600⟩ : Event) :: l2 ∧
        ∀ x ∈ l1, classifyEvent x 0 ≠ .ongoing :=
  (event_window_classification ⟨1, 1, 0, 0, 3600⟩ 0 [⟨1, 1, 0, 0, 3600⟩]
    ⟨1, 1, 0, 0, 3600⟩).2.2.2.2 (by decide)

/-- C9: the three tier counters partition the resolved student set — their
sum is always the number of resolved students — and with no students all
counts and percentages are zero. -/
theorem risk_counts_partition (s : Snapshot) (org : ℕ) :
    (riskDistribution s org).1 + (riskDistribution s org).2.1 +
        (riskDistribution s org).2.2 = (riskSets s org).1.length ∧
    ((riskSets s org).1.length = 0 →
      riskDistribution s org = (0, 0, 0) ∧
        riskPercents s org = (0, 0, 0)) := by
  constructor
  · by_cases h : (riskSets s org).1.length = 0
    · simp [riskDistribution, h]
    · simp only [riskDistribution, h, if_false]
      exact countP_riskTier _ _
  · intro h
    refine ⟨by simp [riskDistribution, h], by simp [riskPercents, h]⟩

/-- C9 witness: on the empty snapshot all counts and percentages vanish. -/
theorem risk_counts_partition_witness :
    riskDistribution exEmpty 1 = (0, 0, 0) ∧
      riskPercents exEmpty 1 = (0, 0, 0) :=
  (risk_counts_partition exEmpty 1).2 (by decide)

/-- C10: on a non-empty baseline event set, the per-student list flag and the
aggregate tier are the same function of the four query results: high-risk is
labelled Chronic Risk, emerging-risk At-Risk, low-risk Good Standing. -/
theorem aggregate_list_flag_agreement (a t nr ar : ℕ) (h : t ≠ 0) :
    studentFlag a t nr ar =
      match riskTierOverview a t nr ar with
      | .high => ("high-risk", "Chronic Risk")
      | .emerging => ("emerging-risk", "At-Risk")
      | .low => ("low-risk", "Good Standing") := by
  simp only [studentFlag, riskTierOverview, riskPolicy, listAttendanceRate,
    overviewAttendanceRate, h, if_false]
  split_ifs <;> rfl

/-- C10 witness: agreement at attended 0 of 1 baseline event with an empty
recent window. -/
theorem aggregate_list_flag_agreement_witness :
    studentFlag 0 1 0 0 =
      match riskTierOverview 0 1 0 0 with
      | .high => ("high-risk", "Chronic Risk")
      | .emerging => ("emerging-risk", "At-Risk")
      | .low => ("low-risk", "Good Standing") :=
  aggregate_list_flag_agreement 0 1 0 0 (by decide)
